import Mathlib

/-
Shallow embedding of the Web Live Annotator (src/app.py): the FrameGrabber
acquisition loop and latest-frame hand-off, the Recorder paced write loop,
the Session timing and timeline, and the HTTP-layer operations that drive
them (annotate, stop).  Time values (time.perf_counter results, sleep
durations, fps) are modelled as rationals; frames (np.ndarray) are an
abstract type parameter; external OpenCV calls (cv2.resize, cv2.imencode)
are modelled as abstract function arguments.
-/

namespace App

/-- Connectivity status of the FrameGrabber (src/app.py line 44):
idle | connecting | streaming | error. -/
inductive GrabStatus where
  | idle
  | connecting
  | streaming
  | error
deriving DecidableEq, Repr

/-- State of a FrameGrabber visible to the acquisition loop and its readers
(src/app.py lines 35-44): whether a capture handle is open (`self._cap is
not None`), the current status string, and the latest published frame
(`self._latest_bgr`).  `F` is the abstract frame type (np.ndarray). -/
structure GrabberState (F : Type) where
  cap : Bool
  status : GrabStatus
  latest : Option F
deriving DecidableEq, Repr

/-- Initial FrameGrabber state (src/app.py lines 35-44): no capture handle,
status idle, no frame yet. -/
def initGrabber (F : Type) : GrabberState F :=
  { cap := false, status := .idle, latest := none }

/-- One iteration of the acquisition loop `FrameGrabber._run` (src/app.py
lines 79-96), including the `_open_cap` attempt (lines 67-77) when no
handle is open.  Inputs: `rz` models the conditional cv2.resize of lines
91-94 (an external call; it does not affect status or frame presence),
`openOk` is the outcome of `cv2.VideoCapture(...).isOpened()` when an open
is attempted, and `readRes` is the outcome of `self._cap.read()` (`none`
for a failed or null read).  Returns the new state together with the list
of status values assigned during the iteration, in program order, since
`self._status` is read concurrently by the HTTP layer. -/
def acqIter {F : Type} (rz : F → F) (s : GrabberState F)
    (openOk : Bool) (readRes : Option F) :
    GrabberState F × List GrabStatus :=
  if s.cap then
    match readRes with
    | none =>
      ({ cap := false, status := .error, latest := s.latest }, [.error])
    | some f =>
      ({ s with latest := some (rz f) }, [])
  else
    if openOk then
      match readRes with
      | none =>
        ({ cap := false, status := .error, latest := s.latest },
         [.connecting, .streaming, .error])
      | some f =>
        ({ cap := true, status := .streaming, latest := some (rz f) },
         [.connecting, .streaming])
    else
      ({ s with status := .error }, [.connecting, .error])

/-- Run the acquisition loop over a list of iteration inputs (open outcome,
read outcome), accumulating every status value assigned along the way. -/
def acqRun {F : Type} (rz : F → F) (s : GrabberState F) :
    List (Bool × Option F) → GrabberState F × List GrabStatus
  | [] => (s, [])
  | e :: es =>
    let step := acqIter rz s e.1 e.2
    let rest := acqRun rz step.1 es
    (rest.1, step.2 ++ rest.2)

/-- `FrameGrabber.get_latest_frame` (src/app.py lines 98-100): returns a
copy of the latest frame, or none if no frame has been published yet. -/
def get_latest_frame {F : Type} (s : GrabberState F) : Option F :=
  s.latest

/-- `FrameGrabber.get_latest_jpeg` (src/app.py lines 102-109): encodes the
latest frame; returns none when there is no frame, and also when
`cv2.imencode` reports failure (`if not ok: return None`).  `enc` models
the external cv2.imencode call, taking the quality and the frame. -/
def get_latest_jpeg {F : Type} (enc : ℕ → F → Option (List ℕ))
    (s : GrabberState F) (quality : ℕ) : Option (List ℕ) :=
  match get_latest_frame s with
  | none => none
  | some f =>
    match enc quality f with
    | none => none
    | some bytes => some bytes

/-- `ts_filename` (src/app.py lines 30-32): timestamped filename from a
prefix and suffix; the timestamp string is passed in explicitly. -/
def ts_filename (pfx suffix ts : String) : String :=
  pfx ++ ts ++ suffix

/-- State of a Recorder (src/app.py lines 115-125): target fps, output
directory, filename prefix, assigned output path, whether the lazily
created cv2.VideoWriter exists, the stop event, and the `_active` flag. -/
structure RecorderState where
  fps : ℚ
  out_dir : String
  pfx : String
  path : Option String
  writerOpen : Bool
  stopRequested : Bool
  active : Bool
deriving DecidableEq, Repr

/-- Fresh Recorder as built by `Recorder.__init__` (src/app.py lines
116-125). -/
def initRecorder (fps : ℚ) (out_dir pfx : String) : RecorderState :=
  { fps := fps, out_dir := out_dir, pfx := pfx, path := none,
    writerOpen := false, stopRequested := false, active := false }

/-- `Recorder.start` (src/app.py lines 127-135): no-op while `_active`;
otherwise assigns a fresh timestamped output path, clears the stop event,
launches the write loop, and sets `_active`.  `ts` is the current local
timestamp used by `ts_filename`; `os.path.join` is modelled as
concatenation with a separator. -/
def Recorder.start (ts : String) (r : RecorderState) : RecorderState :=
  if r.active then r
  else
    { r with
      path := some (r.out_dir ++ "/" ++ ts_filename r.pfx ".mp4" ts),
      stopRequested := false,
      active := true }

/-- `Recorder.stop` (src/app.py lines 137-149): no-op unless `_active`;
otherwise sets the stop event, joins the thread, releases the writer, and
clears `_active`. -/
def Recorder.stop (r : RecorderState) : RecorderState :=
  if r.active then
    { r with stopRequested := true, writerOpen := false, active := false }
  else r

/-- Target inter-frame interval of the paced write loop (src/app.py line
163): `1.0 / max(1e-6, self.fps)`. -/
def target_dt (fps : ℚ) : ℚ :=
  1 / max (1 / 1000000) fps

/-- Loop-local state of `Recorder._run` (src/app.py lines 162-178): the
next scheduled write time `next_t`, whether the writer has been lazily
created, and the count of frames written so far. -/
structure RecLoop where
  nextT : ℚ
  writerOpen : Bool
  framesWritten : ℕ
deriving DecidableEq, Repr

/-- One iteration of the paced write loop `Recorder._run` (src/app.py
lines 165-178).  `frame` is the result of `self.src.get_latest_frame()`;
`now` is the `time.perf_counter()` read that computes `sleep_for` (line
174) and `now2` is the second read used when the schedule is reset (line
178).  Returns the new loop state and the duration this iteration sleeps:
a fixed 10 ms when no frame is available, `min(sleep_for, 0.2)` when ahead
of schedule, and 0 when behind. -/
def recIter {F : Type} (fps : ℚ) (s : RecLoop) (frame : Option F)
    (now now2 : ℚ) : RecLoop × ℚ :=
  match frame with
  | none => (s, 1 / 100)
  | some _ =>
    let s1 : RecLoop :=
      { s with writerOpen := true, framesWritten := s.framesWritten + 1 }
    let nextT := s.nextT + target_dt fps
    let sleepFor := nextT - now
    if 0 < sleepFor then
      ({ s1 with nextT := nextT }, min sleepFor (1 / 5))
    else
      ({ s1 with nextT := now2 }, 0)

/-- One timestamped text entry of the session timeline, as built by
`Session.add` (src/app.py line 203): `{"t": elapsed, "text": text}`. -/
structure AnnEntry where
  t : ℚ
  text : String
deriving DecidableEq, Repr

/-- State of a Session (src/app.py lines 180-187). -/
structure SessionState where
  source : String
  started_at_iso : Option String
  t0_monotonic : Option ℚ
  timeline : List AnnEntry
  recorder : Option RecorderState
  recording_path : Option String
deriving DecidableEq, Repr

/-- Fresh Session as built by `Session.__init__` (src/app.py lines
181-187). -/
def Session.init (source : String) : SessionState :=
  { source := source, started_at_iso := none, t0_monotonic := none,
    timeline := [], recorder := none, recording_path := none }

/-- `Session.elapsed` (src/app.py lines 197-200): 0 when never started,
otherwise `max(0, perf_counter() - t0)`.  `now` is the current monotonic
clock reading. -/
def Session.elapsed (s : SessionState) (now : ℚ) : ℚ :=
  match s.t0_monotonic with
  | none => 0
  | some t0 => max 0 (now - t0)

/-- `Session.start` (src/app.py lines 189-195): records the wall-clock ISO
timestamp and the monotonic reference, clears the timeline, stores and
starts the given recorder, then records the freshly assigned recorder
output path.  `wallIso` is the `now_utc_iso()` result, `mono` the
`time.perf_counter()` reading, `recTs` the timestamp used by
`Recorder.start` for the output filename. -/
def Session.start (s : SessionState) (rec : RecorderState)
    (wallIso : String) (mono : ℚ) (recTs : String) : SessionState :=
  let rec2 := Recorder.start recTs rec
  { s with
    started_at_iso := some wallIso,
    t0_monotonic := some mono,
    timeline := [],
    recorder := some rec2,
    recording_path := rec2.path }

/-- `Session.add` (src/app.py lines 202-205): builds `{t, text}` from the
current elapsed time, appends it to the timeline, and returns it.  Note
the code performs no validation here. -/
def Session.add (s : SessionState) (now : ℚ) (text : String) :
    SessionState × AnnEntry :=
  let item : AnnEntry := { t := Session.elapsed s now, text := text }
  ({ s with timeline := s.timeline ++ [item] }, item)

/-- `Session.undo` (src/app.py lines 207-210): none on an empty timeline,
otherwise pops and returns the last entry. -/
def Session.undo (s : SessionState) : SessionState × Option AnnEntry :=
  match s.timeline.getLast? with
  | none => (s, none)
  | some a => ({ s with timeline := s.timeline.dropLast }, some a)

/-- The serialized session record produced by `Session.to_json`
(src/app.py lines 212-219). -/
structure SessionRecord where
  video_source : String
  started_at : Option String
  duration_sec : ℚ
  timeline : List AnnEntry
  recording : Option String
deriving DecidableEq, Repr

/-- `Session.to_json` (src/app.py lines 212-219). -/
def Session.to_json (s : SessionState) (now : ℚ) : SessionRecord :=
  { video_source := s.source,
    started_at := s.started_at_iso,
    duration_sec := Session.elapsed s now,
    timeline := s.timeline,
    recording := s.recording_path }

/-- Drop leading and trailing whitespace characters from a character
list. -/
def stripChars (l : List Char) : List Char :=
  ((l.dropWhile Char.isWhitespace).reverse.dropWhile Char.isWhitespace).reverse

/-- Models Python `str.strip()` (drop leading and trailing whitespace), as
used by the annotate route (src/app.py line 295). -/
def pyStrip (s : String) : String :=
  String.mk (stripChars s.data)

/-- Outcome of the `/annotate` route: either HTTP 400 with an error
message, or the stored entry echoed back as JSON. -/
inductive AnnotateResult where
  | error400 (msg : String)
  | ok (a : AnnEntry)
deriving DecidableEq, Repr

/-- The `/annotate` route handler (src/app.py lines 292-299): strips the
submitted text, rejects with HTTP 400 when the result is empty without
touching the session, and otherwise passes the stripped text to
`Session.add`. -/
def annotate (s : SessionState) (now : ℚ) (raw : String) :
    SessionState × AnnotateResult :=
  let text := pyStrip raw
  if text = "" then (s, .error400 "text is empty")
  else
    let step := Session.add s now text
    (step.1, .ok step.2)

/-- Invariant of the acquisition loop: whenever a capture handle is open,
the status is streaming (`_open_cap` only installs a handle after setting
status streaming, and every read failure both sets error and releases the
handle). -/
def capOk {F : Type} (s : GrabberState F) : Prop :=
  s.cap = true → s.status = .streaming

/-- The session-mutating core of the `/stop` route handler `stop_and_quit`
(src/app.py lines 301-320): stops the recorder if one is active, then
serializes the session record (which is then written to disk; file IO and
server shutdown are outside the model). -/
def stop_and_quit (s : SessionState) (now : ℚ) :
    SessionState × SessionRecord :=
  let s1 :=
    match s.recorder with
    | some r =>
      if r.active then { s with recorder := some (Recorder.stop r) } else s
    | none => s
  (s1, Session.to_json s1 now)

/-- Helper: one acquisition iteration preserves the cap-implies-streaming
invariant. -/
theorem acqIter_capOk {F : Type} (rz : F → F) (s : GrabberState F)
    (b : Bool) (r : Option F) (h : capOk s) :
    capOk (acqIter rz s b r).1 := by
  unfold capOk at h ⊢
  cases hc : s.cap <;> cases b <;> cases r <;> simp [acqIter, hc]
  all_goals exact h hc

/-- Helper: while every open attempt fails, an acquisition loop that is in
the error state with no open handle stays in the error state at every
iteration boundary, and the only status values written along the way are
connecting and error. -/
theorem acqRun_error_persist {F : Type} (rz : F → F) :
    ∀ (evs : List (Bool × Option F)) (s : GrabberState F),
      s.status = .error → s.cap = false →
      (∀ e ∈ evs, e.1 = false) →
      (acqRun rz s evs).1.status = .error ∧
      (acqRun rz s evs).1.cap = false ∧
      ∀ w ∈ (acqRun rz s evs).2, w = .connecting ∨ w = .error := by
  intro evs
  induction evs with
  | nil =>
    intro s hs hc _
    simpa [acqRun] using ⟨hs, hc⟩
  | cons e es ih =>
    intro s hs hc hall
    have he : e.1 = false := hall e (List.mem_cons_self _ _)
    have hstep : acqIter rz s e.1 e.2 =
        ({ s with status := .error }, [.connecting, .error]) := by
      simp [acqIter, hc, he]
    have hrest := ih { s with status := .error } rfl hc
      (fun x hx => hall x (List.mem_cons_of_mem _ hx))
    simp only [acqRun, hstep]
    refine ⟨hrest.1, hrest.2.1, ?_⟩
    intro w hw
    simp only [List.mem_append, List.mem_cons, List.not_mem_nil, or_false] at hw
    rcases hw with (h1 | h1) | h1
    · exact Or.inl h1
    · exact Or.inr h1
    · exact hrest.2.2 w h1

/-- C5: Session.elapsed returns 0 when the session was never started,
returns max(0, now - t0) once started, is non-decreasing as the monotonic
clock advances, and depends only on the monotonic start reference, never
on the wall-clock field or any other part of the session state. -/
theorem claim5_elapsed_spec :
    (∀ (s : SessionState) (now : ℚ), s.t0_monotonic = none →
      Session.elapsed s now = 0) ∧
    (∀ (s : SessionState) (t0 now : ℚ), s.t0_monotonic = some t0 →
      Session.elapsed s now = max 0 (now - t0)) ∧
    (∀ (s : SessionState) (n1 n2 : ℚ), n1 ≤ n2 →
      Session.elapsed s n1 ≤ Session.elapsed s n2) ∧
    (∀ (s1 s2 : SessionState) (now : ℚ),
      s1.t0_monotonic = s2.t0_monotonic →
      Session.elapsed s1 now = Session.elapsed s2 now) := by
  refine ⟨?_, ?_, ?_, ?_⟩
  · intro s now h
    simp [Session.elapsed, h]
  · intro s t0 now h
    simp [Session.elapsed, h]
  · intro s n1 n2 h
    unfold Session.elapsed
    cases s.t0_monotonic with
    | none => exact le_rfl
    | some t0 => exact max_le_max le_rfl (by linarith)
  · intro s1 s2 now h
    unfold Session.elapsed
    rw [h]

/-- Witness for C5 at concrete inputs. -/
theorem claim5_elapsed_spec_witness :
    Session.elapsed (Session.init "cam") 7 = 0 ∧
    Session.elapsed { Session.init "cam" with t0_monotonic := some 2 } 5 =
      max 0 (5 - 2) ∧
    Session.elapsed { Session.init "cam" with t0_monotonic := some 2 } 3 ≤
      Session.elapsed { Session.init "cam" with t0_monotonic := some 2 } 4 ∧
    Session.elapsed ⟨"cam", some "w", some 2, [], none, none⟩ 5 =
      Session.elapsed { Session.init "cam" with t0_monotonic := some 2 } 5 :=
  ⟨claim5_elapsed_spec.1 _ 7 rfl,
   claim5_elapsed_spec.2.1 _ 2 5 rfl,
   claim5_elapsed_spec.2.2.1 _ 3 4 (by norm_num),
   claim5_elapsed_spec.2.2.2 _ _ 5 rfl⟩

/-- C6: stopping a session that was never started does not fail and still
produces a serialized record with duration_sec 0, an empty timeline, and
the session state untouched. -/
theorem claim6_stop_unstarted (src : String) (now : ℚ) :
    stop_and_quit (Session.init src) now =
      (Session.init src,
       { video_source := src, started_at := none, duration_sec := 0,
         timeline := [], recording := none }) := by
  rfl

/-- C7: undo on an empty timeline returns none and leaves the session
unchanged; after two adds, undo removes and returns exactly the second
entry, restoring the state reached after the first add. -/
theorem claim7_undo (s : SessionState) (hs : s.timeline = [])
    (s2 : SessionState) (n1 n2 : ℚ) (t1 t2 : String) :
    Session.undo s = (s, none) ∧
    Session.undo (Session.add (Session.add s2 n1 t1).1 n2 t2).1 =
      ((Session.add s2 n1 t1).1,
       some { t := Session.elapsed (Session.add s2 n1 t1).1 n2,
              text := t2 }) := by
  constructor
  · simp [Session.undo, hs]
  · simp [Session.undo, Session.add]

/-- Witness for C7 at concrete inputs. -/
theorem claim7_undo_witness :
    Session.undo (Session.init "a") = (Session.init "a", none) ∧
    Session.undo
        (Session.add (Session.add (Session.init "b") 1 "x").1 2 "y").1 =
      ((Session.add (Session.init "b") 1 "x").1,
       some { t := Session.elapsed (Session.add (Session.init "b") 1 "x").1 2,
              text := "y" }) :=
  claim7_undo (Session.init "a") rfl (Session.init "b") 1 2 "x" "y"

/-- C9: Session.start sets the wall-clock timestamp and monotonic
reference to the supplied current readings, clears the timeline even when
non-empty, stores the started recorder (which is active afterwards), and
records the output path of that recorder. -/
theorem claim9_session_start (s : SessionState) (rec : RecorderState)
    (wallIso : String) (mono : ℚ) (recTs : String) :
    Session.start s rec wallIso mono recTs =
      { s with
        started_at_iso := some wallIso,
        t0_monotonic := some mono,
        timeline := [],
        recorder := some (Recorder.start recTs rec),
        recording_path := (Recorder.start recTs rec).path } ∧
    (Recorder.start recTs rec).active = true := by
  constructor
  · rfl
  · cases hr : rec.active <;> simp [Recorder.start, hr]

/-- C10: whenever the submitted text strips to a non-empty string, the
annotate route stores and returns the whitespace-stripped text, not the
raw text, appending exactly one entry. -/
theorem claim10_annotate_strips (s : SessionState) (now : ℚ)
    (raw : String) (h : pyStrip raw ≠ "") :
    annotate s now raw =
      ({ s with timeline := s.timeline ++
          [{ t := Session.elapsed s now, text := pyStrip raw }] },
       .ok { t := Session.elapsed s now, text := pyStrip raw }) := by
  simp [annotate, Session.add, h]

/-- Witness for C10 at a concrete input with surrounding whitespace. -/
theorem claim10_annotate_strips_witness :
    annotate (Session.init "cam") 0 "  hi  " =
      ({ Session.init "cam" with timeline :=
          [{ t := Session.elapsed (Session.init "cam") 0,
             text := pyStrip "  hi  " }] },
       .ok { t := Session.elapsed (Session.init "cam") 0,
             text := pyStrip "  hi  " }) :=
  claim10_annotate_strips (Session.init "cam") 0 "  hi  " (by decide)

/-- C8: in every write-loop iteration: with no frame available the loop
sleeps a fixed 10 ms and leaves the schedule and write count untouched;
after writing a frame the schedule advances by exactly one target interval
and the loop sleeps until it, capped at 0.2 s; when the advanced schedule
is already in the past, the schedule resets to the current clock reading
and the iteration does not sleep. -/
theorem claim8_rec_pacing {F : Type} (fps : ℚ) (s : RecLoop)
    (now now2 : ℚ) (f : F) :
    recIter fps s (none : Option F) now now2 = (s, 1 / 100) ∧
    (0 < s.nextT + target_dt fps - now →
      recIter fps s (some f) now now2 =
        ({ nextT := s.nextT + target_dt fps, writerOpen := true,
           framesWritten := s.framesWritten + 1 },
         min (s.nextT + target_dt fps - now) (1 / 5))) ∧
    (s.nextT + target_dt fps - now ≤ 0 →
      recIter fps s (some f) now now2 =
        ({ nextT := now2, writerOpen := true,
           framesWritten := s.framesWritten + 1 }, 0)) := by
  refine ⟨rfl, ?_, ?_⟩
  · intro h
    simp only [recIter]
    rw [if_pos h]
  · intro h
    simp only [recIter]
    rw [if_neg (not_lt.mpr h)]

/-- Witness for C8 at concrete inputs exercising all three branches. -/
theorem claim8_rec_pacing_witness :
    recIter 25 ⟨0, false, 0⟩ (none : Option Unit) 0 9 = (⟨0, false, 0⟩, 1 / 100) ∧
    recIter 25 ⟨0, false, 0⟩ (some ()) 0 9 =
      (⟨(0 : ℚ) + target_dt 25, true, 0 + 1⟩, min ((0 : ℚ) + target_dt 25 - 0) (1 / 5)) ∧
    recIter 25 ⟨0, false, 0⟩ (some ()) 1 9 = (⟨9, true, 0 + 1⟩, 0) :=
  ⟨(claim8_rec_pacing 25 ⟨0, false, 0⟩ 0 9 ()).1,
   (claim8_rec_pacing 25 ⟨0, false, 0⟩ 0 9 ()).2.1 (by norm_num [target_dt]),
   (claim8_rec_pacing 25 ⟨0, false, 0⟩ 1 9 ()).2.2 (by norm_num [target_dt])⟩

/-- C1 counterexample: Session.add with text that trims to empty does not
fail with a validation error: called with the empty string on a fresh
session it appends one entry (the timeline changes from [] to a singleton)
and returns that entry. -/
theorem claim1_add_counterexample :
    (Session.add (Session.init "cam") 0 "").1.timeline =
      [{ t := 0, text := "" }] ∧
    (Session.add (Session.init "cam") 0 "").2 = { t := 0, text := "" } := by
  constructor <;> rfl

/-- C1 (amended): Session.add itself performs no validation and appends
one entry {elapsed, text} for every text, the empty string included; the
validation behaviour the claim describes holds one level up, at the
annotate route: text stripping to empty is rejected with a validation
error and no state change, and any other text is appended exactly once as
{elapsed, stripped text} and returned. -/
theorem claim1_add_validation (s : SessionState) (now : ℚ)
    (raw text : String) :
    Session.add s now text =
      ({ s with timeline := s.timeline ++
          [{ t := Session.elapsed s now, text := text }] },
       { t := Session.elapsed s now, text := text }) ∧
    (pyStrip raw = "" →
      annotate s now raw = (s, .error400 "text is empty")) ∧
    (pyStrip raw ≠ "" →
      annotate s now raw =
        ({ s with timeline := s.timeline ++
            [{ t := Session.elapsed s now, text := pyStrip raw }] },
         .ok { t := Session.elapsed s now, text := pyStrip raw })) := by
  refine ⟨rfl, ?_, ?_⟩
  · intro h
    simp [annotate, h]
  · intro h
    simp [annotate, Session.add, h]

/-- Witness for C1 (amended) at concrete inputs: whitespace-only text is
rejected without mutation, non-empty text is appended once. -/
theorem claim1_add_validation_witness :
    annotate (Session.init "c") 0 "   " =
      (Session.init "c", .error400 "text is empty") ∧
    annotate (Session.init "c") 0 "ok" =
      ({ Session.init "c" with timeline :=
          [] ++ [{ t := Session.elapsed (Session.init "c") 0,
                   text := pyStrip "ok" }] },
       .ok { t := Session.elapsed (Session.init "c") 0,
             text := pyStrip "ok" }) :=
  ⟨(claim1_add_validation (Session.init "c") 0 "   " "x").2.1 (by decide),
   (claim1_add_validation (Session.init "c") 0 "ok" "x").2.2 (by decide)⟩

/-- C2 counterexample: calling start on a Recorder that has been stopped
does begin a new recording: after start-stop-start on one instance the
active flag is set again and a fresh timestamped output path has been
assigned. -/
theorem claim2_restart_counterexample :
    (Recorder.stop (Recorder.start "t1" (initRecorder 25 "." "recording_"))).active
      = false ∧
    (Recorder.start "t2" (Recorder.stop
        (Recorder.start "t1" (initRecorder 25 "." "recording_")))).active
      = true ∧
    (Recorder.start "t2" (Recorder.stop
        (Recorder.start "t1" (initRecorder 25 "." "recording_")))).path
      = some "./recording_t2.mp4" ∧
    (Recorder.start "t1" (initRecorder 25 "." "recording_")).path
      = some "./recording_t1.mp4" := by
  refine ⟨rfl, ?_, ?_, rfl⟩ <;> rfl

/-- C2 (amended): the code does not enforce single use: Recorder.stop
always leaves the active flag cleared, and a subsequent Recorder.start on
the stopped instance proceeds, assigning a fresh output path, clearing the
stop event, and setting the active flag again, i.e. the instance is
reusable.  (The application nevertheless constructs a new Recorder per
session start.) -/
theorem claim2_recorder_reuse (r : RecorderState) (ts2 : String) :
    (Recorder.stop r).active = false ∧
    Recorder.start ts2 (Recorder.stop r) =
      { Recorder.stop r with
        path := some ((Recorder.stop r).out_dir ++ "/" ++
          ts_filename (Recorder.stop r).pfx ".mp4" ts2),
        stopRequested := false,
        active := true } := by
  have hstop : (Recorder.stop r).active = false := by
    unfold Recorder.stop
    cases hr : r.active <;> simp [hr]
  refine ⟨hstop, ?_⟩
  unfold Recorder.start
  rw [if_neg (by rw [hstop]; exact Bool.false_ne_true)]

/-- C3 counterexample: from the idle initial state, two consecutive failed
open attempts write the status sequence connecting, error, connecting,
error: after the first failure and before any success the value connecting
(not error) is observable, because every open attempt first sets status to
connecting. -/
theorem claim3_status_counterexample :
    (acqRun (fun n : ℕ => n) (initGrabber ℕ)
        [(false, none), (false, none)]).2 =
      [.connecting, .error, .connecting, .error] ∧
    GrabStatus.connecting ≠ GrabStatus.error := by
  constructor
  · rfl
  · decide

/-- C3 (amended): after any iteration ending in a successful read the
status is streaming; after any iteration ending in a failed open or failed
read the status is error; and while every subsequent open attempt fails
the status at iteration boundaries stays error — but each open attempt
transiently writes connecting before its outcome, so between a failure and
the next successful open the observable status values are error and
connecting, not error alone. -/
theorem claim3_status_trace {F : Type} (rz : F → F) (s : GrabberState F)
    (b : Bool) (f : F) (r : Option F) (evs : List (Bool × Option F)) :
    (capOk s → s.cap = true ∨ b = true →
      (acqIter rz s b (some f)).1.status = .streaming) ∧
    (r = none ∨ (s.cap = false ∧ b = false) →
      (acqIter rz s b r).1.status = .error ∧
      (acqIter rz s b r).1.cap = false) ∧
    (s.status = .error → s.cap = false → (∀ e ∈ evs, e.1 = false) →
      (acqRun rz s evs).1.status = .error ∧
      (acqRun rz s evs).1.cap = false ∧
      ∀ w ∈ (acqRun rz s evs).2, w = .connecting ∨ w = .error) := by
  refine ⟨?_, ?_, acqRun_error_persist rz evs s⟩
  · intro hok hsucc
    cases hc : s.cap with
    | true => simpa [acqIter, hc] using hok hc
    | false =>
      rcases hsucc with h | h
      · rw [hc] at h
        exact absurd h Bool.false_ne_true
      · simp [acqIter, hc, h]
  · intro hfail
    cases hc : s.cap <;> cases hb : b <;> cases r <;> simp_all [acqIter]

/-- Witness for C3 (amended) at concrete inputs. -/
theorem claim3_status_trace_witness :
    (acqIter (fun n : ℕ => n) ⟨true, .streaming, some 5⟩ false (some 7)).1.status
      = .streaming ∧
    ((acqIter (fun n : ℕ => n) ⟨true, .streaming, some 5⟩ false none).1.status
        = .error ∧
      (acqIter (fun n : ℕ => n) ⟨true, .streaming, some 5⟩ false none).1.cap
        = false) ∧
    ((acqRun (fun n : ℕ => n) ⟨false, .error, some 5⟩
        [(false, none), (false, none)]).1.status = .error ∧
      (acqRun (fun n : ℕ => n) ⟨false, .error, some 5⟩
        [(false, none), (false, none)]).1.cap = false ∧
      ∀ w ∈ (acqRun (fun n : ℕ => n) ⟨false, .error, some 5⟩
        [(false, none), (false, none)]).2,
        w = .connecting ∨ w = .error) :=
  ⟨(claim3_status_trace (fun n : ℕ => n) ⟨true, .streaming, some 5⟩ false 7
      none []).1 (by intro h; rfl) (Or.inl rfl),
   (claim3_status_trace (fun n : ℕ => n) ⟨true, .streaming, some 5⟩ false 7
      none []).2.1 (Or.inl rfl),
   (claim3_status_trace (fun n : ℕ => n) ⟨false, .error, some 5⟩ false 7
      none [(false, none), (false, none)]).2.2 rfl rfl (by decide)⟩

/-- C4 counterexample: with a frame present but the encoder reporting
failure, get_latest_jpeg returns none while get_latest_frame returns the
frame, so the two functions do not return nothing under the same
condition. -/
theorem claim4_jpeg_counterexample :
    get_latest_frame (⟨true, .streaming, some 0⟩ : GrabberState ℕ) = some 0 ∧
    get_latest_jpeg (fun _ _ => none)
      (⟨true, .streaming, some 0⟩ : GrabberState ℕ) 80 = none := by
  constructor <;> rfl

/-- C4 (amended): get_latest_jpeg returns nothing exactly when
get_latest_frame returns nothing or the encoder fails on the latest frame;
whenever a frame is present and the encoder succeeds on it, the encoded
bytes are returned. -/
theorem claim4_jpeg_none_iff {F : Type} (enc : ℕ → F → Option (List ℕ))
    (s : GrabberState F) (q : ℕ) :
    (get_latest_jpeg enc s q = none ↔
      (get_latest_frame s = none ∨
        ∃ f, get_latest_frame s = some f ∧ enc q f = none)) ∧
    (∀ f bytes, get_latest_frame s = some f → enc q f = some bytes →
      get_latest_jpeg enc s q = some bytes) := by
  constructor
  · cases hl : s.latest with
    | none => simp [get_latest_jpeg, get_latest_frame, hl]
    | some f =>
      cases he : enc q f with
      | none => simp [get_latest_jpeg, get_latest_frame, hl, he]
      | some bytes => simp [get_latest_jpeg, get_latest_frame, hl, he]
  · intro f bytes hf he
    simp only [get_latest_frame] at hf
    simp [get_latest_jpeg, get_latest_frame, hf, he]

/-- Witness for C4 (amended) at a concrete encoder and state. -/
theorem claim4_jpeg_none_iff_witness :
    get_latest_jpeg (fun _ f => some [f])
      (⟨true, .streaming, some 3⟩ : GrabberState ℕ) 80 = some [3] :=
  (claim4_jpeg_none_iff (fun _ f => some [f])
    (⟨true, .streaming, some 3⟩ : GrabberState ℕ) 80).2 3 [3] rfl rfl

end App
